import Mathlib

/-!
Shallow embedding of the fraud-scoring pipeline of the Student Reimbursement
Platform (backend/app): Layer 1 hash/duplicate detection
(`services/validation/hash_service.py`), Layer 2 EXIF metadata analysis
(`services/validation/exif_service.py`), Layer 3 OCR text analysis
(`services/validation/ocr_service.py`), the persistence-time combined scoring
(`services/metadata_service.py`) and the `/test/combined-layers` endpoint
(`main.py`).

Conventions of the embedding:
* Python floats are modelled as rationals (`ℚ`); all constants in the source
  are small decimal literals, written here as exact fractions.
* The environment (file system, Tesseract OCR, PIL image decoding, the clock)
  is factored out: functions receive the recognized text, the extracted EXIF
  tag map, and a datetime-parsing oracle `ageOf` (mapping a tag value to the
  photo age in days that `datetime.strptime`/`datetime.now()` would produce,
  `none` when parsing raises) as explicit arguments.
* The database is modelled as in-memory lists of records; SQLAlchemy's
  `.first()` on an unordered query is modelled as `List.find?` in insertion
  order.
* The regular expressions of `ocr_service.py` are compiled by hand into
  character-list matchers with Python `re.search` semantics (leftmost match,
  greedy quantifiers, `IGNORECASE`); the pattern shapes involved are simple
  enough that greedy matching with a single optional-separator backtrack is
  exact.
-/

namespace SRP

/-! ## Small Python-semantics helpers -/

/-- `str.lower()` of a Python string, as a character list. -/
def pyLower (s : String) : List Char :=
  s.data.map Char.toLower

/-- Python regex `\s` (ASCII whitespace; the tag values and OCR text involved
are ASCII). -/
def isPyWS (c : Char) : Bool :=
  c == ' ' || c == '\t' || c == '\n' || c == '\r' || c == '\x0b' || c == '\x0c'

/-- Truthiness of a Python string (`if s:`): non-empty. -/
def pyTruthy (s : String) : Bool :=
  !s.isEmpty

/-- Truthiness of an optional Python string (`None` and `""` are falsy). -/
def pyTruthyOpt : Option String → Bool
  | none => false
  | some s => pyTruthy s

/-- `needle == hay[:len(needle)]` on character lists. -/
def listStartsWith : List Char → List Char → Bool
  | [], _ => true
  | _ :: _, [] => false
  | k :: ks, c :: cs => k == c && listStartsWith ks cs

/-- Python `needle in hay` (substring containment) on character lists. -/
def containsSub (needle : List Char) : List Char → Bool
  | [] => needle.isEmpty
  | c :: rest => listStartsWith needle (c :: rest) || containsSub needle rest

/-! ## Hand-compiled `re.search` matchers for the patterns of
`ocr_service.py` -/

/-- Consume a case-insensitive literal keyword (given lowercased) at the head
of the input, returning the rest. -/
def stripCI : List Char → List Char → Option (List Char)
  | [], l => some l
  | _ :: _, [] => none
  | k :: ks, c :: cs => if c.toLower == k then stripCI ks cs else none

/-- `\s*` (greedy; safe because no following pattern element matches
whitespace). -/
def dropWS (l : List Char) : List Char :=
  l.dropWhile isPyWS

/-- Match `KW1\s*KW2\s*[:\-]?\s*(\d{6,10})` at the current position (both
keywords lowercased), returning the captured digit group. Greedy `[:\-]?` is
exact here: the characters `:`/`-` are not digits, so consuming the separator
never loses a match. -/
def matchNumLabelAt (kw1 kw2 : List Char) (l : List Char) : Option (List Char) :=
  match stripCI kw1 l with
  | none => none
  | some l1 =>
    match stripCI kw2 (dropWS l1) with
    | none => none
    | some l2 =>
      let l3 := dropWS l2
      let l4 := match l3 with
        | c :: cs => if c == ':' || c == '-' then cs else l3
        | [] => l3
      let ds := ((dropWS l4).takeWhile Char.isDigit).take 10
      if 6 ≤ ds.length then some ds else none

/-- `re.search`: try the position matcher at each start position, leftmost
match wins (the empty final position included). -/
def searchIn (f : List Char → Option (List Char)) : List Char → Option (List Char)
  | [] => f []
  | c :: rest =>
    match f (c :: rest) with
    | some r => some r
    | none => searchIn f rest

/-- `re.search(KW1\s*KW2\s*[:\-]?\s*(\d{6,10}), text, re.IGNORECASE)`,
returning the captured group. -/
def reSearchNumLabel (kw1 kw2 : String) (text : String) : Option String :=
  (searchIn (matchNumLabelAt (pyLower kw1) (pyLower kw2)) text.data).map
    fun ds => String.mk ds

/-- Character class `[A-Z0-9\-]` under `re.IGNORECASE`. -/
def isIdChar (c : Char) : Bool :=
  c.isAlpha || c.isDigit || c == '-'

/-- Match `(TR\d{14})` at the current position (case-insensitive), returning
the captured group (which includes the `TR`). -/
def matchTRAt : List Char → Option (List Char)
  | c1 :: c2 :: rest =>
    if c1.toLower == 't' && c2.toLower == 'r' then
      let ds := (rest.takeWhile Char.isDigit).take 14
      if ds.length == 14 then some (c1 :: c2 :: ds) else none
    else none
  | _ => none

/-- Match `KW\s*[:\-]?\s*([A-Z0-9\-]{8,20})` at the current position
(keyword lowercased). Because `-` belongs both to the optional separator and
to the captured class, the greedy separator is tried first and retried
without it on failure, exactly as the regex engine backtracks. -/
def matchIdLabelAt (kw : List Char) (l : List Char) : Option (List Char) :=
  match stripCI kw l with
  | none => none
  | some l1 =>
    let l2 := dropWS l1
    let attempt : List Char → Option (List Char) := fun rest =>
      let ds := ((dropWS rest).takeWhile isIdChar).take 20
      if 8 ≤ ds.length then some ds else none
    match l2 with
    | c :: cs =>
      if c == ':' || c == '-' then
        match attempt cs with
        | some r => some r
        | none => attempt l2
      else attempt l2
    | [] => attempt []

/-- `re.search(KW\s*[:\-]?\s*([A-Z0-9\-]{8,20}), text, re.IGNORECASE)`. -/
def reSearchIdLabel (kw : String) (text : String) : Option String :=
  (searchIn (matchIdLabelAt (pyLower kw)) text.data).map fun ds => String.mk ds

/-! ## Layer 3: `OCRService` (`ocr_service.py`) -/

/-- `OCRService.extract_stpt_id`: try the five label patterns in order, first
match wins; confidence 0.9 for the pattern containing `SERIE`, 0.7 for the
others; `(None, 0.0)` when nothing matches. -/
def extract_stpt_id (text : String) : Option String × ℚ :=
  match reSearchNumLabel "SERIE" "CARD" text with
  | some v => (some v, 9/10)
  | none =>
  match reSearchNumLabel "CARD" "ID" text with
  | some v => (some v, 7/10)
  | none =>
  match reSearchNumLabel "CARD" "NO" text with
  | some v => (some v, 7/10)
  | none =>
  match reSearchNumLabel "STPT" "ID" text with
  | some v => (some v, 7/10)
  | none =>
  match reSearchNumLabel "STPT" "CARD" text with
  | some v => (some v, 7/10)
  | none => (none, 0)

/-- `OCRService.extract_receipt_id`: `(TR\d{14})`, then the three labelled
alphanumeric patterns; fixed confidence 0.8 on any match. -/
def extract_receipt_id (text : String) : Option String × ℚ :=
  match (searchIn matchTRAt text.data).map (fun ds => String.mk ds) with
  | some v => (some v, 4/5)
  | none =>
  match reSearchIdLabel "RECEIPT" text with
  | some v => (some v, 4/5)
  | none =>
  match reSearchIdLabel "TRANSACTION" text with
  | some v => (some v, 4/5)
  | none =>
  match reSearchIdLabel "REF" text with
  | some v => (some v, 4/5)
  | none => (none, 0)

/-- Result dictionary of `OCRService.analyze_receipt_text`.
`average_confidence` is `none` on the OCR-failure dictionary, which does not
carry that key. -/
structure OcrResult where
  ocr_successful : Bool
  raw_text : String
  stpt_id : Option String
  stpt_id_confidence : ℚ
  receipt_id : Option String
  receipt_id_confidence : ℚ
  average_confidence : Option ℚ
  risk_score : ℚ
  flags : List String
deriving DecidableEq

/-- `OCRService.analyze_receipt_text`, as a function of the recognized
(stripped) text returned by `extract_text`. -/
def analyze_receipt_text (raw_text : String) : OcrResult :=
  if raw_text.isEmpty then
    { ocr_successful := false
      raw_text := ""
      stpt_id := none
      stpt_id_confidence := 0
      receipt_id := none
      receipt_id_confidence := 0
      average_confidence := none
      risk_score := 1/2
      flags := ["ocr_failed"] }
  else
    let stpt := extract_stpt_id raw_text
    let rcpt := extract_receipt_id raw_text
    let risk0 : ℚ := 0
    let flags0 : List String := []
    let risk1 := if stpt.1.isNone then risk0 + 2/5
      else if stpt.2 < 7/10 then risk0 + 1/5 else risk0
    let flags1 := if stpt.1.isNone then flags0 ++ ["stpt_id_not_found"]
      else if stpt.2 < 7/10 then flags0 ++ ["stpt_id_low_confidence"] else flags0
    let risk2 := if rcpt.1.isNone then risk1 + 1/10 else risk1
    let flags2 := if rcpt.1.isNone then flags1 ++ ["receipt_id_not_found"] else flags1
    let avg : ℚ := if stpt.1.isSome || rcpt.1.isSome then (stpt.2 + rcpt.2) / 2 else 0
    let risk3 := if avg < 3/5 then risk2 + 1/5 else risk2
    let flags3 := if avg < 3/5 then flags2 ++ ["low_ocr_quality"] else flags2
    { ocr_successful := true
      raw_text := raw_text
      stpt_id := stpt.1
      stpt_id_confidence := stpt.2
      receipt_id := rcpt.1
      receipt_id_confidence := rcpt.2
      average_confidence := some avg
      risk_score := min risk3 1
      flags := flags3 }

/-! ## Layer 2: `ExifService` (`exif_service.py`) -/

/-- EXIF tag map extracted from the image: tag name to (stringified) value.
A Python dict has unique keys; lookups take the first binding. -/
def Tags : Type := List (String × String)

/-- `field in exif_data` / `exif_data[field]` lookup. -/
def lookupTag (tags : Tags) (k : String) : Option String :=
  (List.find? (fun kv => kv.1 == k) tags).map fun kv => kv.2

/-- `ExifService.EDITING_SOFTWARE`. -/
def EDITING_SOFTWARE : List String :=
  ["photoshop", "gimp", "paint.net", "affinity", "lightroom", "snapseed",
   "pixlr", "photoscape", "fotor"]

/-- `ExifService.MOBILE_BRANDS`. -/
def MOBILE_BRANDS : List String :=
  ["iphone", "samsung", "google", "huawei", "xiaomi", "oppo", "vivo",
   "oneplus", "motorola", "nokia"]

/-- `safe_patterns` of `ExifService.check_any_software`. -/
def SAFE_PATTERNS : List String :=
  ["ios", "android", "firmware", "camera", "iphone", "samsung", "google",
   "huawei"]

/-- `ExifService.check_editing_software`: first software field whose
lowercased value contains a known editor substring; returns the original
value. -/
def check_editing_software (tags : Tags) : Bool × Option String :=
  match List.findSome?
      (fun f => match lookupTag tags f with
        | some v =>
          if EDITING_SOFTWARE.any (fun ed => containsSub ed.data (pyLower v))
          then some v else none
        | none => none)
      ["Software", "ProcessingSoftware", "HostComputer"] with
  | some v => (true, some v)
  | none => (false, none)

/-- `ExifService.check_mobile_camera`: first model/make field whose
lowercased value contains a known mobile brand substring. -/
def check_mobile_camera (tags : Tags) : Bool × Option String :=
  match List.findSome?
      (fun f => match lookupTag tags f with
        | some v =>
          if MOBILE_BRANDS.any (fun br => containsSub br.data (pyLower v))
          then some v else none
        | none => none)
      ["Model", "Make"] with
  | some v => (true, some v)
  | none => (false, none)

/-- `ExifService.check_any_software`: first software field whose lowercased
value matches no safe pattern and has length > 2. -/
def check_any_software (tags : Tags) : Bool × Option String :=
  match List.findSome?
      (fun f => match lookupTag tags f with
        | some v =>
          let software := pyLower v
          let is_safe := SAFE_PATTERNS.any fun sp => containsSub sp.data software
          if !is_safe && 2 < software.length then some v else none
        | none => none)
      ["Software", "ProcessingSoftware"] with
  | some v => (true, some v)
  | none => (false, none)

/-- `ExifService.check_exif_inconsistencies`. The third check compares the
values with Python truthiness (`if dt_original and dt_digitized and ...`). -/
def check_exif_inconsistencies (tags : Tags) : Bool × List String :=
  let flags1 :=
    if (lookupTag tags "Software").isSome && (lookupTag tags "Model").isNone
    then ["software_without_camera_model"] else []
  let missing_fields := ["Make", "Model"].filter fun f => (lookupTag tags f).isNone
  let flags2 :=
    if 1 ≤ missing_fields.length && (lookupTag tags "DateTime").isSome
    then flags1 ++ ["incomplete_camera_data"] else flags1
  let flags3 :=
    match lookupTag tags "DateTimeOriginal", lookupTag tags "DateTimeDigitized" with
    | some a, some b =>
      if pyTruthy a && pyTruthy b && a != b
      then flags2 ++ ["inconsistent_timestamps"] else flags2
    | _, _ => flags2
  (!flags3.isEmpty, flags3)

/-- `ExifService.get_photo_age_days`, parameterized by the environment oracle
`ageOf`: for a tag value, the age in days that
`(datetime.now() - strptime(value, "%Y:%m:%d %H:%M:%S")).days` yields, or
`none` when parsing raises (the loop then continues with the next field). -/
def get_photo_age_days (ageOf : String → Option Int) (tags : Tags) : Option Int :=
  List.findSome? (fun f => (lookupTag tags f).bind ageOf)
    ["DateTime", "DateTimeOriginal", "DateTimeDigitized"]


/-- The `if photo_age and photo_age > 90` condition of `analyze_exif`
(Python truthiness of the int: `0` is falsy). -/
def condOldPhoto (ageOf : String → Option Int) (tags : Tags) : Bool :=
  match get_photo_age_days ageOf tags with
  | some a => a != 0 && decide (90 < a)
  | none => false

/-- Result dictionary of `ExifService.analyze_exif`. -/
structure ExifResult where
  exif_status : String
  exif_exists : Bool
  has_editing_software : Bool
  editing_software : Option String
  is_mobile_camera : Bool
  camera_model : Option String
  photo_age_days : Option Int
  risk_score : ℚ
  flags : List String
  assessment : String
  has_inconsistencies : Bool
  timestamp_inconsistency : Bool
deriving DecidableEq

/-- `ExifService.analyze_exif`, as a function of the extracted tag map and
the datetime oracle. Note `if photo_age and photo_age > 90` uses Python
truthiness of the int (`0` is falsy). -/
def analyze_exif (ageOf : String → Option Int) (tags : Tags) : ExifResult :=
  let exif_exists : Bool := !tags.isEmpty
  let risk1 : ℚ := if !exif_exists then 0 + 2/5 else 0
  let flags1 : List String := if !exif_exists then ["no_exif_data"] else []
  let exif_status : String := if !exif_exists then "missing" else "present"
  let ed := check_editing_software tags
  let is_edited := ed.1
  let risk2 := if is_edited then risk1 + 1/2 else risk1
  let flags2 := if is_edited then flags1 ++ ["known_editing_software"] else flags1
  let mob := check_mobile_camera tags
  let is_mobile := mob.1
  let camera_model := mob.2
  let unk := check_any_software tags
  let has_unknown_software := unk.1
  let risk3 :=
    if has_unknown_software && !is_edited then
      if is_mobile && pyTruthyOpt camera_model then risk2 + 3/5 else risk2 + 3/10
    else risk2
  let flags3 :=
    if has_unknown_software && !is_edited then
      if is_mobile && pyTruthyOpt camera_model then
        flags2 ++ ["post_capture_editing_detected"]
      else flags2 ++ ["unknown_software_detected"]
    else flags2
  let software_name := if has_unknown_software && !is_edited then unk.2 else ed.2
  let inc := check_exif_inconsistencies tags
  let has_inconsistencies := inc.1
  let risk4 := if has_inconsistencies then risk3 + 1/4 else risk3
  let flags4 := if has_inconsistencies then flags3 ++ inc.2 else flags3
  let flags5 := if !is_mobile && exif_exists then flags4 ++ ["not_mobile_camera"] else flags4
  let photo_age := get_photo_age_days ageOf tags
  let oldCond : Bool := condOldPhoto ageOf tags
  let risk5 := if oldCond then risk4 + 1/10 else risk4
  let flags6 := if oldCond then flags5 ++ ["old_photo"] else flags5
  let missDT : Bool := exif_exists && (lookupTag tags "DateTime").isNone
  let risk6 := if missDT then risk5 + 1/5 else risk5
  let flags7 := if missDT then flags6 ++ ["missing_datetime"] else flags6
  let assessment :=
    if risk6 ≥ 7/10 then "high_risk"
    else if risk6 ≥ 2/5 then "medium_risk"
    else "low_risk"
  { exif_status := exif_status
    exif_exists := exif_exists
    has_editing_software := is_edited || has_unknown_software
    editing_software := software_name
    is_mobile_camera := is_mobile
    camera_model := if exif_exists then camera_model else none
    photo_age_days := photo_age
    risk_score := risk6
    flags := flags7
    assessment := assessment
    has_inconsistencies := has_inconsistencies
    timestamp_inconsistency := false }


/-! ## Layer 1: `HashService` (`hash_service.py`) and the receipt store -/

/-- A row of the `receipts` table (the columns the pipeline reads). -/
structure Receipt where
  receipt_id : String
  student_id : Nat
  sha256_hash : String
deriving DecidableEq

/-- `HashService.check_duplicate`: first stored receipt with the same digest
owned by the same student. -/
def check_duplicate (db : List Receipt) (file_hash : String) (student_id : Nat) :
    Bool × Option String :=
  match db.find? (fun r => r.sha256_hash == file_hash && r.student_id == student_id) with
  | some r => (true, some r.receipt_id)
  | none => (false, none)

/-- `HashService.check_global_duplicate`: first stored receipt with the same
digest, regardless of owner. -/
def check_global_duplicate (db : List Receipt) (file_hash : String) :
    Bool × Option Nat :=
  match db.find? (fun r => r.sha256_hash == file_hash) with
  | some r => (true, some r.student_id)
  | none => (false, none)

/-- Result dictionary of `HashService.validate_file_integrity`. -/
structure Layer1Result where
  sha256_hash : String
  is_duplicate : Bool
  duplicate_receipt_id : Option String
  is_global_duplicate : Bool
  fraud_suspected : Bool
  other_student_id : Option Nat
deriving DecidableEq

/-- `HashService.validate_file_integrity`, as a function of the digest of the
uploaded bytes (`compute_sha256` is the environment's SHA-256). -/
def validate_file_integrity (db : List Receipt) (file_hash : String)
    (student_id : Nat) : Layer1Result :=
  let dup := check_duplicate db file_hash student_id
  let gdup := check_global_duplicate db file_hash
  { sha256_hash := file_hash
    is_duplicate := dup.1
    duplicate_receipt_id := dup.2
    is_global_duplicate := gdup.1 && gdup.2 != some student_id
    fraud_suspected := gdup.1 && gdup.2 != some student_id
    other_student_id := if gdup.1 then gdup.2 else none }

/-! ## `MetadataService` (`metadata_service.py`) and the metadata store -/

/-- The `risk_factors` JSON built by `update_combined_risk_score`. -/
structure RiskFactors where
  layer1_fraud_detected : Bool
  layer1_duplicate_detected : Bool
  layer2_risk_score : Option ℚ
  layer2_flags : List String
  layer2_has_editing_software : Bool
  layer2_editing_software : Option String
  total_risk : ℚ
  assessment : String
deriving DecidableEq

/-- A row of the `receipt_metadata` table (the columns the pipeline touches).
Nullable numeric columns are `Option ℚ`; their SQL column default is `0.0`,
which is what a freshly committed row carries. -/
structure ReceiptMetadata where
  receipt_id : String
  exif_status : Option String := none
  has_editing_software : Bool := false
  editing_software_name : Option String := none
  is_mobile_camera : Option Bool := none
  camera_model : Option String := none
  photo_age_days : Option Int := none
  has_exif_inconsistencies : Bool := false
  exif_flags : List String := []
  layer2_risk_score : Option ℚ := some 0
  layer3_risk_score : Option ℚ := some 0
  layer4_risk_score : Option ℚ := some 0
  tampering_score : ℚ := 0
  risk_factors : Option RiskFactors := none
  assessment : Option String := none
deriving DecidableEq

/-- Python `x or 0.0` on a nullable float column. -/
def orZero : Option ℚ → ℚ
  | none => 0
  | some q => q

/-- Field updates performed by `MetadataService.save_layer2_results` on the
(found or freshly created) metadata row. -/
def applyLayer2 (m : ReceiptMetadata) (l2 : ExifResult) : ReceiptMetadata :=
  { m with
    exif_status := some l2.exif_status
    has_editing_software := l2.has_editing_software
    editing_software_name := l2.editing_software
    is_mobile_camera := some l2.is_mobile_camera
    camera_model := l2.camera_model
    photo_age_days := l2.photo_age_days
    has_exif_inconsistencies := l2.has_inconsistencies
    exif_flags := l2.flags
    layer2_risk_score := some l2.risk_score
    tampering_score := l2.risk_score }

/-- Commit a row: replace the first row with the same `receipt_id`
(`receipt_id` is unique), or append a new one. -/
def storeMeta : List ReceiptMetadata → ReceiptMetadata → List ReceiptMetadata
  | [], m => [m]
  | m0 :: rest, m =>
    if m0.receipt_id == m.receipt_id then m :: rest else m0 :: storeMeta rest m

/-- `MetadataService.save_layer2_results`: read-or-create the row for the
receipt, write the Layer-2 fields, commit. -/
def save_layer2_results (metas : List ReceiptMetadata) (receipt_id : String)
    (l2 : ExifResult) : List ReceiptMetadata :=
  let base :=
    match metas.find? (fun m => m.receipt_id == receipt_id) with
    | some m => m
    | none => { receipt_id := receipt_id }
  storeMeta metas (applyLayer2 base l2)

/-- Row-level computation of `MetadataService.update_combined_risk_score`:
total = layer2 (+0.9 on Layer-1 fraud, else +0.3 on Layer-1 duplicate)
+ layer3 + layer4, capped at 1.0; stored category thresholds 0.7/0.4. -/
def update_combined_risk_score (m : ReceiptMetadata)
    (layer1_fraud layer1_duplicate : Bool) : ReceiptMetadata :=
  let total0 := orZero m.layer2_risk_score
  let total1 :=
    if layer1_fraud then total0 + 9/10
    else if layer1_duplicate then total0 + 3/10
    else total0
  let total2 := total1 + orZero m.layer3_risk_score + orZero m.layer4_risk_score
  let total_risk := min total2 1
  let assessment :=
    if total_risk ≥ 7/10 then "high_risk"
    else if total_risk ≥ 2/5 then "medium_risk"
    else "low_risk"
  { m with
    tampering_score := total_risk
    assessment := some assessment
    risk_factors := some
      { layer1_fraud_detected := layer1_fraud
        layer1_duplicate_detected := layer1_duplicate
        layer2_risk_score := m.layer2_risk_score
        layer2_flags := m.exif_flags
        layer2_has_editing_software := m.has_editing_software
        layer2_editing_software := m.editing_software_name
        total_risk := total_risk
        assessment := assessment } }

/-- `MetadataService.update_combined_risk_score` at the store level: no row,
no write (the service returns `None`). -/
def update_combined_risk_score_db (metas : List ReceiptMetadata)
    (receipt_id : String) (layer1_fraud layer1_duplicate : Bool) :
    List ReceiptMetadata :=
  match metas.find? (fun m => m.receipt_id == receipt_id) with
  | some m => storeMeta metas (update_combined_risk_score m layer1_fraud layer1_duplicate)
  | none => metas

/-! ## The `/test/combined-layers` endpoint (`main.py`, `test_combined_layers`) -/

/-- Persistent state the endpoint touches: the `receipts` and
`receipt_metadata` tables. -/
structure PipelineState where
  receipts : List Receipt
  metas : List ReceiptMetadata
deriving DecidableEq

/-- The endpoint's JSON response (the decision-relevant fields). -/
structure CombinedResponse where
  action : String
  layer1 : Layer1Result
  layer2 : Option ExifResult
  combined_risk_score : Option ℚ
  database_saved : Bool
  receipt_id : Option String
deriving DecidableEq

/-- `test_combined_layers`: Layer 1 on the uploaded digest; on fraud or
duplicate, reject without running Layer 2 and without any write; otherwise
save the receipt, run Layer 2 (on the tags of the stored copy), persist the
metadata, update the combined score, and decide on the Layer-2 risk with the
0.8/0.5 ingestion thresholds. `new_receipt_id` is the freshly minted UUID. -/
def test_combined_layers (st : PipelineState) (student_id : Nat)
    (file_hash : String) (new_receipt_id : String)
    (ageOf : String → Option Int) (tags : Tags) :
    CombinedResponse × PipelineState :=
  let l1 := validate_file_integrity st.receipts file_hash student_id
  if l1.fraud_suspected then
    ({ action := "rejected", layer1 := l1, layer2 := none,
       combined_risk_score := none, database_saved := false,
       receipt_id := none }, st)
  else if l1.is_duplicate then
    ({ action := "rejected", layer1 := l1, layer2 := none,
       combined_risk_score := none, database_saved := false,
       receipt_id := none }, st)
  else
    let receipts2 := st.receipts ++
      [{ receipt_id := new_receipt_id, student_id := student_id,
         sha256_hash := l1.sha256_hash }]
    let l2 := analyze_exif ageOf tags
    let metas2 := save_layer2_results st.metas new_receipt_id l2
    let metas3 := update_combined_risk_score_db metas2 new_receipt_id
      l1.fraud_suspected l1.is_duplicate
    let total_risk := l2.risk_score
    let action :=
      if total_risk ≥ 4/5 then "flagged_high_risk"
      else if total_risk ≥ 1/2 then "flagged_medium_risk"
      else "approved"
    ({ action := action, layer1 := l1, layer2 := some l2,
       combined_risk_score := some (min total_risk 1), database_saved := true,
       receipt_id := some new_receipt_id },
     { receipts := receipts2, metas := metas3 })


/-! ## Shared helpers for the claim theorems -/

/-- Datetime oracle of an environment in which no tag value parses (or no
timestamp tag is present). -/
def noAge : String → Option Int := fun _ => none

/-- The Metadata-layer risk as a function of the boolean risk conditions the
accumulation in `analyze_exif` branches on: metadata absent, known editing
software, mobile capture with a truthy model (feeding the post-capture
branch), unknown software, inconsistencies, old photo, missing `DateTime`. -/
def riskFromConds (noMeta edited mobileCam unknownSW inconsist oldPhoto missDT : Bool) : ℚ :=
  (if noMeta then 2/5 else 0) + (if edited then 1/2 else 0) +
  (if unknownSW && !edited then (if mobileCam then 3/5 else 3/10) else 0) +
  (if inconsist then 1/4 else 0) + (if oldPhoto then 1/10 else 0) +
  (if missDT then 1/5 else 0)

/-- The `exif_exists and 'DateTime' not in exif_data` condition of
`analyze_exif`. -/
def condMissingDT (tags : Tags) : Bool :=
  !tags.isEmpty && (lookupTag tags "DateTime").isNone

/-- The `is_mobile and camera_model` condition of the post-capture branch of
`analyze_exif`. -/
def condPostCaptureCam (tags : Tags) : Bool :=
  (check_mobile_camera tags).1 && pyTruthyOpt (check_mobile_camera tags).2

/-- Modelled from the spec: "average of the two confidences (counting only
identifiers that were found; 0.0 if neither found)" — the mean over the
identifiers actually found, for comparison with the code's
`(stpt_confidence + receipt_confidence) / 2`. -/
def found_only_average : Option String × ℚ → Option String × ℚ → ℚ
  | (some _, c1), (some _, c2) => (c1 + c2) / 2
  | (some _, c1), (none, _) => c1
  | (none, _), (some _, c2) => c2
  | (none, _), (none, _) => 0

/-- The risk score of `analyze_exif` is exactly `riskFromConds` applied to
the seven condition predicates extracted from the tag map. -/
theorem analyze_exif_risk_eq (ageOf : String → Option Int) (tags : Tags) :
    (analyze_exif ageOf tags).risk_score =
      riskFromConds tags.isEmpty (check_editing_software tags).1
        (condPostCaptureCam tags) (check_any_software tags).1
        (check_exif_inconsistencies tags).1 (condOldPhoto ageOf tags)
        (condMissingDT tags) := by
  simp only [analyze_exif, riskFromConds, condMissingDT, condPostCaptureCam]
  by_cases h1 : tags.isEmpty = true <;>
  by_cases h2 : (check_editing_software tags).1 = true <;>
  by_cases h3 : ((check_mobile_camera tags).1 && pyTruthyOpt (check_mobile_camera tags).2) = true <;>
  by_cases h4 : (check_any_software tags).1 = true <;>
  by_cases h5 : (check_exif_inconsistencies tags).1 = true <;>
  by_cases h6 : condOldPhoto ageOf tags = true <;>
  by_cases h7 : (lookupTag tags "DateTime").isNone = true <;>
  simp [h1, h2, h3, h4, h5, h6, h7]

/-! ## Claim theorems -/

/-- C6: for an input whose text recognition yields the empty string, the
Text-Extraction Layer returns exactly `ocr_successful = false`,
`risk_score = 0.5`, `flags = ["ocr_failed"]`, with both identifiers `None`
at confidence 0.0 and no extraction attempted (the success-path
`average_confidence` key is absent). -/
theorem c6_empty_text_fixed_result :
    analyze_receipt_text "" =
      { ocr_successful := false
        raw_text := ""
        stpt_id := none
        stpt_id_confidence := 0
        receipt_id := none
        receipt_id_confidence := 0
        average_confidence := none
        risk_score := 1/2
        flags := ["ocr_failed"] } := rfl

/-- C9: for the empty metadata tag set, `analyze_exif` returns risk_score
exactly 0.4, flags exactly `["no_exif_data"]`, assessment `"medium_risk"`,
and no other risk step fires (the full result record is fixed). -/
theorem c9_empty_tags_exact_result (ageOf : String → Option Int) :
    analyze_exif ageOf [] =
      { exif_status := "missing"
        exif_exists := false
        has_editing_software := false
        editing_software := none
        is_mobile_camera := false
        camera_model := none
        photo_age_days := none
        risk_score := 2/5
        flags := ["no_exif_data"]
        assessment := "medium_risk"
        has_inconsistencies := false
        timestamp_inconsistency := false } := by
  with_unfolding_all rfl

/-- C8 counterexample: on the empty tag set the Metadata Layer's flag list is
exactly `["no_exif_data"]`; the flag named `no_metadata` in the claim never
appears. -/
theorem c8_counterexample_flag_name :
    (analyze_exif noAge []).exif_status = "missing" ∧
    (2:ℚ)/5 ≤ (analyze_exif noAge []).risk_score ∧
    (analyze_exif noAge []).flags = ["no_exif_data"] ∧
    "no_metadata" ∉ (analyze_exif noAge []).flags := by
  with_unfolding_all decide

/-- C8 amended: for the empty metadata tag set, `analyze_exif` returns
`exif_status = "missing"`, a flags list containing `no_exif_data` (the
code's name for the absence flag), and risk_score ≥ 0.4. -/
theorem c8_amended_empty_tags (ageOf : String → Option Int) :
    (analyze_exif ageOf []).exif_status = "missing" ∧
    "no_exif_data" ∈ (analyze_exif ageOf []).flags ∧
    (2:ℚ)/5 ≤ (analyze_exif ageOf []).risk_score := by
  have h : analyze_exif ageOf [] =
      { exif_status := "missing"
        exif_exists := false
        has_editing_software := false
        editing_software := none
        is_mobile_camera := false
        camera_model := none
        photo_age_days := none
        risk_score := 2/5
        flags := ["no_exif_data"]
        assessment := "medium_risk"
        has_inconsistencies := false
        timestamp_inconsistency := false } := by
    with_unfolding_all rfl
  rw [h]
  refine ⟨rfl, by simp, by norm_num⟩

/-- C4 counterexample: a tag set with a known editor, inconsistent
timestamps, an old parseable capture date and no `DateTime` tag drives the
Metadata Layer's surfaced risk_score to 0.5 + 0.25 + 0.1 + 0.2 = 1.05 > 1:
the layer does not clamp to [0,1]. -/
theorem c4_counterexample_exif_unclamped :
    (analyze_exif (fun _ => some 2000)
      [("Software", "photoshop"), ("DateTimeOriginal", "2020:01:01 00:00:00"),
       ("DateTimeDigitized", "2021:01:01 00:00:00")]).risk_score = 21/20 ∧
    ¬((analyze_exif (fun _ => some 2000)
      [("Software", "photoshop"), ("DateTimeOriginal", "2020:01:01 00:00:00"),
       ("DateTimeDigitized", "2021:01:01 00:00:00")]).risk_score ≤ 1) := by
  with_unfolding_all decide

/-- Non-negativity of `riskFromConds` over all condition vectors. -/
theorem riskFromConds_nonneg :
    ∀ nm ed mc un ic op md : Bool, 0 ≤ riskFromConds nm ed mc un ic op md := by
  with_unfolding_all decide

/-- C4 amended: the Text-Extraction Layer's risk_score is clamped into
[0,1]; the Metadata Layer's risk_score is non-negative but is surfaced
un-clamped (it can exceed 1, see the counterexample); the aggregated scores
— the stored `tampering_score` and the endpoint's `combined_risk_score` —
are capped at 1. -/
theorem c4_amended_score_bounds :
    (∀ text : String, 0 ≤ (analyze_receipt_text text).risk_score ∧
      (analyze_receipt_text text).risk_score ≤ 1) ∧
    (∀ (ageOf : String → Option Int) (tags : Tags),
      0 ≤ (analyze_exif ageOf tags).risk_score) ∧
    (∀ (m : ReceiptMetadata) (f d : Bool),
      (update_combined_risk_score m f d).tampering_score ≤ 1) ∧
    (∀ (st : PipelineState) (sid : Nat) (h rid : String)
      (ageOf : String → Option Int) (tags : Tags),
      ((test_combined_layers st sid h rid ageOf tags).1.combined_risk_score.getD 0) ≤ 1) := by
  refine ⟨?_, ?_, ?_, ?_⟩
  · intro text
    simp only [analyze_receipt_text]
    split_ifs <;> norm_num
  · intro ageOf tags
    rw [analyze_exif_risk_eq]
    exact riskFromConds_nonneg _ _ _ _ _ _ _
  · intro m f d
    simp only [update_combined_risk_score]
    exact min_le_right _ _
  · intro st sid h rid ageOf tags
    simp only [test_combined_layers]
    split_ifs <;> simp

/-- C7: the persistence-time update stores
`tampering_score = min (layer2 + (0.9 if fraud else 0.3 if duplicate) + layer3 + layer4) 1`
and labels the stored category `high_risk` iff the stored score is ≥ 0.7,
`medium_risk` iff 0.4 ≤ score < 0.7, and `low_risk` iff score < 0.4. -/
theorem c7_persistence_combined_score (m : ReceiptMetadata) (f d : Bool) :
    (update_combined_risk_score m f d).tampering_score =
      min (orZero m.layer2_risk_score + (if f then 9/10 else if d then 3/10 else 0) +
        orZero m.layer3_risk_score + orZero m.layer4_risk_score) 1 ∧
    ((update_combined_risk_score m f d).assessment = some "high_risk" ↔
      7/10 ≤ (update_combined_risk_score m f d).tampering_score) ∧
    ((update_combined_risk_score m f d).assessment = some "medium_risk" ↔
      (2/5 ≤ (update_combined_risk_score m f d).tampering_score ∧
        (update_combined_risk_score m f d).tampering_score < 7/10)) ∧
    ((update_combined_risk_score m f d).assessment = some "low_risk" ↔
      (update_combined_risk_score m f d).tampering_score < 2/5) := by
  have key : ∀ T : ℚ,
      (some (if T ≥ 7/10 then "high_risk" else if T ≥ 2/5 then "medium_risk"
          else "low_risk") = some "high_risk" ↔ 7/10 ≤ T) ∧
      (some (if T ≥ 7/10 then "high_risk" else if T ≥ 2/5 then "medium_risk"
          else "low_risk") = some "medium_risk" ↔ (2/5 ≤ T ∧ T < 7/10)) ∧
      (some (if T ≥ 7/10 then "high_risk" else if T ≥ 2/5 then "medium_risk"
          else "low_risk") = some "low_risk" ↔ T < 2/5) := by
    intro T
    refine ⟨?_, ?_, ?_⟩ <;> split_ifs with h1 h2 <;>
      simp_all [ge_iff_le, not_le]
    linarith
  simp only [update_combined_risk_score]
  refine ⟨?_, (key _).1, (key _).2.1, (key _).2.2⟩
  congr 1
  split_ifs
  · ring
  · ring
  · ring

/-- C3 counterexample: over the fixed-shape tag sets
`{Model: "iPhone 13", Software: s}`, moving `s` from `"sketchtool"` to
`"photoshop"` additionally satisfies exactly one risk condition — the
known-editor check (step 2) — while every other condition of steps 1–8 keeps
its value; yet the Metadata Layer's risk_score DROPS from 0.8 to 0.7,
because firing step 2 suppresses the 0.6 post-capture branch of step 4 and
replaces it with its own 0.5. -/
theorem c3_counterexample_monotonicity :
    (check_editing_software [("Model", "iPhone 13"), ("Software", "sketchtool")]).1 = false ∧
    (check_editing_software [("Model", "iPhone 13"), ("Software", "photoshop")]).1 = true ∧
    ([("Model", "iPhone 13"), ("Software", "sketchtool")] : Tags).isEmpty =
      ([("Model", "iPhone 13"), ("Software", "photoshop")] : Tags).isEmpty ∧
    condPostCaptureCam [("Model", "iPhone 13"), ("Software", "sketchtool")] =
      condPostCaptureCam [("Model", "iPhone 13"), ("Software", "photoshop")] ∧
    (check_any_software [("Model", "iPhone 13"), ("Software", "sketchtool")]).1 =
      (check_any_software [("Model", "iPhone 13"), ("Software", "photoshop")]).1 ∧
    (check_exif_inconsistencies [("Model", "iPhone 13"), ("Software", "sketchtool")]).1 =
      (check_exif_inconsistencies [("Model", "iPhone 13"), ("Software", "photoshop")]).1 ∧
    condOldPhoto noAge [("Model", "iPhone 13"), ("Software", "sketchtool")] =
      condOldPhoto noAge [("Model", "iPhone 13"), ("Software", "photoshop")] ∧
    condMissingDT [("Model", "iPhone 13"), ("Software", "sketchtool")] =
      condMissingDT [("Model", "iPhone 13"), ("Software", "photoshop")] ∧
    (analyze_exif noAge [("Model", "iPhone 13"), ("Software", "sketchtool")]).risk_score = 4/5 ∧
    (analyze_exif noAge [("Model", "iPhone 13"), ("Software", "photoshop")]).risk_score = 7/10 ∧
    (analyze_exif noAge [("Model", "iPhone 13"), ("Software", "photoshop")]).risk_score <
      (analyze_exif noAge [("Model", "iPhone 13"), ("Software", "sketchtool")]).risk_score := by
  with_unfolding_all decide

/-- C3 amended: the Metadata Layer's risk_score is non-negative and equals
`riskFromConds` of the seven risk conditions; satisfying one additional
condition (the others unchanged) never decreases the score, EXCEPT for the
known-editor condition: when the unknown-software condition holds on a
mobile capture and the editor condition was off, turning the editor
condition on lowers the score by exactly 0.1 (its +0.5 supersedes the +0.6
post-capture contribution). -/
theorem c3_amended_monotonicity :
    (∀ (ageOf : String → Option Int) (tags : Tags),
      0 ≤ (analyze_exif ageOf tags).risk_score ∧
      (analyze_exif ageOf tags).risk_score =
        riskFromConds tags.isEmpty (check_editing_software tags).1
          (condPostCaptureCam tags) (check_any_software tags).1
          (check_exif_inconsistencies tags).1 (condOldPhoto ageOf tags)
          (condMissingDT tags)) ∧
    (∀ nm ed mc un ic op md : Bool,
      riskFromConds nm ed mc un ic op md ≤ riskFromConds true ed mc un ic op md ∧
      riskFromConds nm ed mc un ic op md ≤ riskFromConds nm ed true un ic op md ∧
      riskFromConds nm ed mc un ic op md ≤ riskFromConds nm ed mc true ic op md ∧
      riskFromConds nm ed mc un ic op md ≤ riskFromConds nm ed mc un true op md ∧
      riskFromConds nm ed mc un ic op md ≤ riskFromConds nm ed mc un ic true md ∧
      riskFromConds nm ed mc un ic op md ≤ riskFromConds nm ed mc un ic op true ∧
      (if un && mc && !ed then
        riskFromConds nm true mc un ic op md = riskFromConds nm ed mc un ic op md - 1/10
      else
        riskFromConds nm ed mc un ic op md ≤ riskFromConds nm true mc un ic op md)) := by
  constructor
  · intro ageOf tags
    rw [analyze_exif_risk_eq]
    exact ⟨riskFromConds_nonneg _ _ _ _ _ _ _, rfl⟩
  · with_unfolding_all decide

/-- C1: if some stored receipt with digest `d` is owned by submitter `a`,
and no stored receipt with digest `d` is owned by submitter `b ≠ a`, then
`b`'s upload of bytes with digest `d` is flagged `fraud_suspected` by the
Integrity layer, the combined pipeline rejects it, Layer 2 (and a fortiori
the Text-Extraction layer, which the combined pipeline never invokes) is not
run, and the state is unchanged — nothing beyond the Integrity finding is
persisted. -/
theorem c1_cross_submitter_short_circuit
    (st : PipelineState) (a b : Nat) (d rid : String)
    (ageOf : String → Option Int) (tags : Tags)
    (_hab : a ≠ b)
    (hA : ∃ r ∈ st.receipts, r.sha256_hash = d ∧ r.student_id = a)
    (hB : ∀ r ∈ st.receipts, r.sha256_hash = d → r.student_id ≠ b) :
    (test_combined_layers st b d rid ageOf tags).1.layer1.fraud_suspected = true ∧
    (test_combined_layers st b d rid ageOf tags).1.action = "rejected" ∧
    (test_combined_layers st b d rid ageOf tags).1.layer2 = none ∧
    (test_combined_layers st b d rid ageOf tags).1.database_saved = false ∧
    (test_combined_layers st b d rid ageOf tags).2 = st := by
  have hfraud : (validate_file_integrity st.receipts d b).fraud_suspected = true := by
    simp only [validate_file_integrity, check_global_duplicate]
    cases hf : st.receipts.find? (fun r => r.sha256_hash == d) with
    | none =>
      exfalso
      obtain ⟨r, hr, hrd, _⟩ := hA
      have hnone := List.find?_eq_none.mp hf r hr
      simp [hrd] at hnone
    | some r0 =>
      have hp := List.find?_some hf
      have hmem := List.mem_of_find?_eq_some hf
      have hr0d : r0.sha256_hash = d := by simpa using hp
      have hne : r0.student_id ≠ b := hB r0 hmem hr0d
      simp [hne]
  simp [test_combined_layers, hfraud]

/-- C2 counterexample: with an empty store (so the Integrity layer passes)
and tags driving the Metadata risk to 0.8, the ingestion decision at
total ≥ 0.8 is NOT a rejection: the receipt is saved and the action is
`flagged_high_risk` (flagged for admin review). -/
theorem c2_counterexample_high_total_not_rejected :
    (4:ℚ)/5 ≤ (analyze_exif noAge
      [("Model", "iPhone 13"), ("Software", "sketchtool")]).risk_score ∧
    (validate_file_integrity ([] : List Receipt) "d" 1).fraud_suspected = false ∧
    (validate_file_integrity ([] : List Receipt) "d" 1).is_duplicate = false ∧
    (test_combined_layers ⟨[], []⟩ 1 "d" "r1" noAge
      [("Model", "iPhone 13"), ("Software", "sketchtool")]).1.action
      = "flagged_high_risk" ∧
    (test_combined_layers ⟨[], []⟩ 1 "d" "r1" noAge
      [("Model", "iPhone 13"), ("Software", "sketchtool")]).1.action ≠ "rejected" ∧
    (test_combined_layers ⟨[], []⟩ 1 "d" "r1" noAge
      [("Model", "iPhone 13"), ("Software", "sketchtool")]).1.database_saved = true := by
  with_unfolding_all decide

/-- C2 amended: for a submission that passes the Integrity layer, the
ingestion-time decision on the (Metadata-layer) total risk is:
total ≥ 0.8 → action `flagged_high_risk` (saved and flagged for admin
review, not rejected); 0.5 ≤ total < 0.8 → `flagged_medium_risk`;
total < 0.5 → `approved`; in all three cases the receipt is persisted. -/
theorem c2_amended_ingestion_decision
    (st : PipelineState) (sid : Nat) (d rid : String)
    (ageOf : String → Option Int) (tags : Tags)
    (h1 : (validate_file_integrity st.receipts d sid).fraud_suspected = false)
    (h2 : (validate_file_integrity st.receipts d sid).is_duplicate = false) :
    (test_combined_layers st sid d rid ageOf tags).1.database_saved = true ∧
    ((4:ℚ)/5 ≤ (analyze_exif ageOf tags).risk_score →
      (test_combined_layers st sid d rid ageOf tags).1.action = "flagged_high_risk") ∧
    ((1:ℚ)/2 ≤ (analyze_exif ageOf tags).risk_score ∧
        (analyze_exif ageOf tags).risk_score < 4/5 →
      (test_combined_layers st sid d rid ageOf tags).1.action = "flagged_medium_risk") ∧
    ((analyze_exif ageOf tags).risk_score < 1/2 →
      (test_combined_layers st sid d rid ageOf tags).1.action = "approved") := by
  simp only [test_combined_layers, h1, h2, Bool.false_eq_true, if_false]
  refine ⟨trivial, ?_, ?_, ?_⟩
  · intro h
    simp [ge_iff_le, h]
  · rintro ⟨hlo, hhi⟩
    rw [if_neg (by simpa [ge_iff_le, not_le] using hhi), if_pos (ge_iff_le.mpr hlo)]
  · intro h
    rw [if_neg (by simp [ge_iff_le, not_le]; linarith), if_neg (by simpa [ge_iff_le, not_le] using h)]

/-- C1 witness: concrete store in which student 1 owns the only receipt with
digest `"d"`; student 2's upload of the same digest is rejected with the
fraud flag, Layer 2 unrun, state unchanged. -/
theorem c1_witness_concrete :
    (test_combined_layers ⟨[⟨"r0", 1, "d"⟩], []⟩ 2 "d" "r1" noAge []).1.layer1.fraud_suspected = true ∧
    (test_combined_layers ⟨[⟨"r0", 1, "d"⟩], []⟩ 2 "d" "r1" noAge []).1.action = "rejected" ∧
    (test_combined_layers ⟨[⟨"r0", 1, "d"⟩], []⟩ 2 "d" "r1" noAge []).1.layer2 = none ∧
    (test_combined_layers ⟨[⟨"r0", 1, "d"⟩], []⟩ 2 "d" "r1" noAge []).1.database_saved = false ∧
    (test_combined_layers ⟨[⟨"r0", 1, "d"⟩], []⟩ 2 "d" "r1" noAge []).2 = ⟨[⟨"r0", 1, "d"⟩], []⟩ :=
  c1_cross_submitter_short_circuit ⟨[⟨"r0", 1, "d"⟩], []⟩ 1 2 "d" "r1" noAge []
    (by decide) (by decide) (by decide)

/-- C2 amended witness: empty store and empty tag set (Metadata risk 0.4 <
0.5): the receipt is saved and approved. -/
theorem c2_amended_witness_concrete :
    (test_combined_layers ⟨[], []⟩ 1 "d" "r1" noAge []).1.database_saved = true ∧
    (test_combined_layers ⟨[], []⟩ 1 "d" "r1" noAge []).1.action = "approved" :=
  ⟨(c2_amended_ingestion_decision ⟨[], []⟩ 1 "d" "r1" noAge [] (by decide) (by decide)).1,
   (c2_amended_ingestion_decision ⟨[], []⟩ 1 "d" "r1" noAge [] (by decide) (by decide)).2.2.2
     (by with_unfolding_all decide)⟩

/-- C5 counterexample: on the text `"SERIE CARD:555845"` the card identifier
is found with confidence 0.9 and the transaction identifier is not found;
the average over the found identifiers is 0.9 ≥ 0.6, so the claimed
condition does not hold — yet `low_ocr_quality` fires, because the code
divides the confidence sum by 2 regardless of how many identifiers were
found (0.9 / 2 = 0.45 < 0.6). -/
theorem c5_counterexample_low_quality :
    "low_ocr_quality" ∈ (analyze_receipt_text "SERIE CARD:555845").flags ∧
    found_only_average (extract_stpt_id "SERIE CARD:555845")
      (extract_receipt_id "SERIE CARD:555845") = 9/10 ∧
    ¬(found_only_average (extract_stpt_id "SERIE CARD:555845")
      (extract_receipt_id "SERIE CARD:555845") < 3/5) := by
  with_unfolding_all decide

/-- C5 amended: for non-empty recognized text, `low_ocr_quality` (+0.2)
fires exactly when `(stpt_confidence + receipt_confidence) / 2` — the sum of
both confidences halved, a missing identifier counting as 0.0 — is below
0.6 when at least one identifier was found, and always (0.0 < 0.6) when
neither was found. -/
theorem c5_amended_low_quality_condition (text : String)
    (h : text.isEmpty = false) :
    ("low_ocr_quality" ∈ (analyze_receipt_text text).flags ↔
      (if (extract_stpt_id text).1.isSome || (extract_receipt_id text).1.isSome
        then ((extract_stpt_id text).2 + (extract_receipt_id text).2) / 2
        else 0) < 3/5) := by
  simp only [analyze_receipt_text, h, Bool.false_eq_true, if_false]
  by_cases havg :
      (if (extract_stpt_id text).1.isSome || (extract_receipt_id text).1.isSome
        then ((extract_stpt_id text).2 + (extract_receipt_id text).2) / 2
        else 0) < 3/5
  · exact iff_of_true (by rw [if_pos havg]; simp) havg
  · exact iff_of_false (by rw [if_neg havg]; split_ifs <;> simp) havg

/-- C5 amended witness: on a text with no identifiers the halved sum is 0 <
0.6, and the flag indeed fires. -/
theorem c5_amended_witness_concrete :
    "low_ocr_quality" ∈ (analyze_receipt_text "abc").flags :=
  (c5_amended_low_quality_condition "abc" (by decide)).mpr
    (by with_unfolding_all decide)

/-- Case structure of `extract_stpt_id`: no match at confidence 0, or a
match at confidence 0.9 (`SERIE CARD` pattern) or 0.7 (the other four
patterns). -/
theorem extract_stpt_id_cases (text : String) :
    extract_stpt_id text = (none, 0) ∨
    (∃ v, extract_stpt_id text = (some v, 9/10)) ∨
    (∃ v, extract_stpt_id text = (some v, 7/10)) := by
  rcases h1 : reSearchNumLabel "SERIE" "CARD" text with _ | v1
  · rcases h2 : reSearchNumLabel "CARD" "ID" text with _ | v2
    · rcases h3 : reSearchNumLabel "CARD" "NO" text with _ | v3
      · rcases h4 : reSearchNumLabel "STPT" "ID" text with _ | v4
        · rcases h5 : reSearchNumLabel "STPT" "CARD" text with _ | v5
          · left; simp [extract_stpt_id, h1, h2, h3, h4, h5]
          · right; right; exact ⟨v5, by simp [extract_stpt_id, h1, h2, h3, h4, h5]⟩
        · right; right; exact ⟨v4, by simp [extract_stpt_id, h1, h2, h3, h4]⟩
      · right; right; exact ⟨v3, by simp [extract_stpt_id, h1, h2, h3]⟩
    · right; right; exact ⟨v2, by simp [extract_stpt_id, h1, h2]⟩
  · right; left; exact ⟨v1, by simp [extract_stpt_id, h1]⟩

/-- C10: the card-id extraction returns either no identifier with
confidence 0.0, or an identifier with confidence 0.9 or 0.7 — always ≥ 0.7
when found — and consequently the `stpt_id_low_confidence` branch of the
Text-Extraction Layer is unreachable: that flag appears in no output. -/
theorem c10_stpt_low_confidence_unreachable (text : String) :
    (((extract_stpt_id text).1 = none ∧ (extract_stpt_id text).2 = 0) ∨
      ((extract_stpt_id text).1 ≠ none ∧
        ((extract_stpt_id text).2 = 9/10 ∨ (extract_stpt_id text).2 = 7/10))) ∧
    ((extract_stpt_id text).1 ≠ none → (7:ℚ)/10 ≤ (extract_stpt_id text).2) ∧
    "stpt_id_low_confidence" ∉ (analyze_receipt_text text).flags := by
  have flags3 : "stpt_id_low_confidence" ∉ (analyze_receipt_text text).flags := by
    rcases extract_stpt_id_cases text with h | ⟨v, h⟩ | ⟨v, h⟩ <;>
    · cases hE : text.isEmpty with
      | true => simp [analyze_receipt_text, hE]
      | false =>
        simp only [analyze_receipt_text, hE, Bool.false_eq_true, if_false, h]
        split_ifs <;> simp_all <;> linarith
  rcases extract_stpt_id_cases text with h | ⟨v, h⟩ | ⟨v, h⟩
  · exact ⟨Or.inl ⟨by rw [h], by rw [h]⟩,
      fun hne => absurd (show (extract_stpt_id text).1 = none by rw [h]) hne, flags3⟩
  · refine ⟨Or.inr ⟨by rw [h]; exact fun hc => Option.noConfusion hc,
      Or.inl (by rw [h])⟩, fun _ => ?_, flags3⟩
    rw [h]
    norm_num
  · refine ⟨Or.inr ⟨by rw [h]; exact fun hc => Option.noConfusion hc,
      Or.inr (by rw [h])⟩, fun _ => ?_, flags3⟩
    rw [h]

end SRP
